import Mathlib

/-!
Verification development for the credential/token broker and webhook
ingestion pipeline (FastAPI + PostgreSQL services under src/api and
src/auth).  Python route handlers, the background worker and the secret
cipher are embedded as pure Lean functions over explicit database
states; external HTTP calls (Microsoft Graph, the OAuth token endpoint)
are modelled as oracle arguments describing the upstream response.
-/

namespace AIWF

/-- Python truthiness of an optional string: `None` and `""` are falsy.
Mirrors `if not x:` checks in the source. -/
def truthy : Option String → Bool
  | none => false
  | some s => !(s == "")

/-! ## Webhook ingestion data model (src/api/app/routes/ms365.py) -/

/-- One element of the `value` array of an MS365 change-notification
batch, as read by `receive_ms365_webhook` (`notification.get(...)`). -/
structure Notification where
  subscriptionId : Option String
  changeType : Option String
  resource : Option String
  resourceDataId : Option String
  resourceDataOdataId : Option String
deriving Repr, DecidableEq

/-- Row of `api.webhook_subscriptions` (the columns the handlers read
and write). -/
structure SubscriptionRow where
  id : String
  credential_id : String
  external_subscription_id : String
  status : String
  last_notification_at : Option Int
deriving Repr, DecidableEq

/-- Row of `api.webhook_events` (the columns the ingestor and the
worker read and write). -/
structure WebhookEventRow where
  id : Nat
  credential_id : String
  subscription_id : String
  provider : String
  event_type : Option String
  idempotency_key : String
  external_resource_id : String
  raw_payload : Notification
  status : String
  retry_count : Nat
  normalized_payload : Option String
  error_message : Option String
deriving Repr, DecidableEq

/-- State of the API service database.  `events` is kept in insertion
order, which is also `received_at` order (`ORDER BY received_at ASC`).
`nextEventId` models the serial primary key. -/
structure ApiDB where
  subscriptions : List SubscriptionRow
  events : List WebhookEventRow
  nextEventId : Nat
deriving Repr, DecidableEq

/-- Number of stored event rows carrying a given idempotency key. -/
def countKey (events : List WebhookEventRow) (k : String) : Nat :=
  (events.filter (fun e => e.idempotency_key == k)).length

/-- Modelled from the spec: the UNIQUE constraint on
`api.webhook_events.idempotency_key` (the table DDL is not under src/;
the spec states the idempotency key is globally unique and the
handler's docstring relies on the constraint).  Inserting a row whose
key is already present fails with a unique-constraint violation;
otherwise the row is appended with status `pending`. -/
def insertEvent (db : ApiDB) (credId subId : String) (changeType : Option String)
    (key resId : String) (raw : Notification) : Option ApiDB :=
  if countKey db.events key ≠ 0 then
    none
  else
    some { db with
      events := db.events ++ [{
        id := db.nextEventId
        credential_id := credId
        subscription_id := subId
        provider := "ms365"
        event_type := changeType
        idempotency_key := key
        external_resource_id := resId
        raw_payload := raw
        status := "pending"
        retry_count := 0
        normalized_payload := none
        error_message := none }]
      nextEventId := db.nextEventId + 1 }

/-- The resource id the handler resolves for a notification:
`resource_data.get("id") or resource_data.get("@odata.id")` (Python
`or` keeps the first truthy operand). -/
def resolvedResourceId (n : Notification) : Option String :=
  if truthy n.resourceDataId then n.resourceDataId else n.resourceDataOdataId

/-- Set `last_notification_at` (and `updated_at`) on every subscription
row with the given external id, as the handler's UPDATE does. -/
def touchSubscription (now : Int) (extId : String) (subs : List SubscriptionRow) :
    List SubscriptionRow :=
  subs.map (fun s =>
    if s.external_subscription_id == extId then
      { s with last_notification_at := some now }
    else s)

/-- Processing of one notification inside the handler's loop
(ms365.py lines 463-538): skip when the subscription id or the resource
id is missing, skip when the external subscription id is unknown,
otherwise insert the event (counting a unique-violation as a duplicate)
and touch the subscription's last-notification timestamp.  The
accumulator carries the database plus the stored and duplicate
counters. -/
def processNotification (now : Int) (acc : ApiDB × Nat × Nat) (n : Notification) :
    ApiDB × Nat × Nat :=
  let (db, stored, dups) := acc
  let resId := resolvedResourceId n
  if !(truthy n.subscriptionId) || !(truthy resId) then
    acc
  else
    let extSubId := n.subscriptionId.getD ""
    match db.subscriptions.find? (fun s => s.external_subscription_id == extSubId) with
    | none => acc
    | some sub =>
      let credId := sub.credential_id
      let key := credId ++ ":" ++ extSubId ++ ":" ++ resId.getD ""
      let afterInsert :=
        match insertEvent db credId sub.id n.changeType key (resId.getD "") n with
        | some db2 => (db2, stored + 1, dups)
        | none => (db, stored, dups + 1)
      let (db3, stored3, dups3) := afterInsert
      ({ db3 with subscriptions := touchSubscription now extSubId db3.subscriptions },
       stored3, dups3)

/-- Body of the webhook POST as the handler sees it: either the JSON
parse fails, or it yields the notification list `body.get("value", [])`. -/
inductive RequestBody where
  | malformed
  | parsed (value : List Notification)
deriving Repr, DecidableEq

/-- HTTP-level outcome of the webhook endpoint. -/
inductive WebhookResponse where
  | plainText (status : Nat) (content : String)
  | acceptedEmpty
  | accepted (stored dups total : Nat)
  | acceptedError (msg : String)
  | httpError (status : Nat) (detail : String)
deriving Repr, DecidableEq

/-- A response the provider counts as successful delivery (the two 2xx
shapes); a raised `HTTPException` is not. -/
def WebhookResponse.isSuccess : WebhookResponse → Bool
  | .httpError _ _ => false
  | _ => true

/-- Embedding of `receive_ms365_webhook` (ms365.py lines 387-561): echo
a truthy validation token as plain text; reject a malformed JSON body
with a 400; acknowledge an empty batch; otherwise fold the notification
loop over the batch, commit, and report stored/duplicate/total counts
with a 202. -/
def receive_ms365_webhook (now : Int) (validationToken : Option String)
    (body : RequestBody) (db : ApiDB) : WebhookResponse × ApiDB :=
  if truthy validationToken then
    (.plainText 200 (validationToken.getD ""), db)
  else
    match body with
    | .malformed => (.httpError 400 "Invalid JSON", db)
    | .parsed notifications =>
      if notifications.isEmpty then
        (.acceptedEmpty, db)
      else
        let res := notifications.foldl (processNotification now) (db, 0, 0)
        (.accepted res.2.1 res.2.2 notifications.length, res.1)

/-! ## Event processing worker (src/api/app/workers/webhook_worker.py) -/

/-- Default retry ceiling, `os.getenv("WEBHOOK_MAX_RETRIES", "3")`. -/
def MAX_RETRY_ATTEMPTS : Nat := 3

/-- Selection predicate of the worker's polling query:
`WHERE status = 'pending' AND retry_count < MAX_RETRY_ATTEMPTS`. -/
def selectable (maxRetry : Nat) (e : WebhookEventRow) : Bool :=
  e.status == "pending" && decide (e.retry_count < maxRetry)

/-- First write of an attempt: `SET status = 'processing'` (worker
lines 84-90). -/
def markProcessing (e : WebhookEventRow) : WebhookEventRow :=
  { e with status := "processing" }

/-- Failure handling of one attempt (worker lines 120-147): increment
the retry count; `failed` when the new count reaches the ceiling,
`pending` otherwise; record the error message truncated to 500
characters. -/
def applyFailure (maxRetry : Nat) (msg : String) (e : WebhookEventRow) : WebhookEventRow :=
  let n := e.retry_count + 1
  { e with
    retry_count := n
    status := if maxRetry ≤ n then "failed" else "pending"
    error_message := some (msg.take 500) }

/-- One failed processing attempt as the worker performs it: mark
`processing`, then apply the failure transition. -/
def failedAttempt (maxRetry : Nat) (msg : String) (e : WebhookEventRow) : WebhookEventRow :=
  applyFailure maxRetry msg (markProcessing e)

/-- Result of the provider fetch + normalization for one event
(`process_ms365_event`); an oracle for the external Graph API call. -/
inductive Outcome where
  | success (normalized : String)
  | failure (msg : String)
deriving Repr, DecidableEq

/-- Effect of one worker attempt on a selected event: mark
`processing`; a non-ms365 provider is skipped (left `processing` by the
`continue`); an ms365 event is completed or run through the failure
transition according to the oracle. -/
def runEvent (maxRetry : Nat) (o : Outcome) (e : WebhookEventRow) : WebhookEventRow :=
  let ep := markProcessing e
  if e.provider == "ms365" then
    match o with
    | .success p => { ep with status := "completed", normalized_payload := some p }
    | .failure m => applyFailure maxRetry m ep
  else
    ep

/-- Counters returned by a worker cycle. -/
structure WorkerStats where
  processed : Nat
  failed : Nat
  skipped : Nat
deriving Repr, DecidableEq

/-- Embedding of `process_pending_events` (worker lines 25-154): select
up to `batchSize` events that are `pending` with retry count below the
ceiling, in received order, and run each through one attempt driven by
the oracle. -/
def process_pending_events (maxRetry batchSize : Nat)
    (outcome : WebhookEventRow → Outcome) (db : ApiDB) : ApiDB × WorkerStats :=
  let selected := (db.events.filter (selectable maxRetry)).take batchSize
  let selectedIds := selected.map (·.id)
  let events := db.events.map (fun e =>
    if selectedIds.contains e.id then runEvent maxRetry (outcome e) e else e)
  let stats : WorkerStats := {
    processed := (selected.filter (fun e =>
      e.provider == "ms365" && match outcome e with | .success _ => true | .failure _ => false)).length
    failed := (selected.filter (fun e =>
      e.provider == "ms365" && match outcome e with | .success _ => false | .failure _ => true)).length
    skipped := (selected.filter (fun e => !(e.provider == "ms365"))).length }
  ({ db with events := events }, stats)

/-! ## Subscription deletion (src/api/app/routes/ms365.py and
src/api/app/services/ms365_service.py) -/

/-- Outcome of the Graph API subscription-delete call; an oracle for
the external request. -/
inductive UpstreamDeleteOutcome where
  | ok
  | failure (msg : String)
deriving Repr, DecidableEq

/-- A raised `HTTPException`: status code and detail. -/
structure HttpError where
  status : Nat
  detail : String
deriving Repr, DecidableEq

/-- Embedding of `delete_subscription` (ms365_service.py lines
378-396): any upstream exception is wrapped in an `MS365ServiceError`
message. -/
def delete_subscription (subscription_id : String) (o : UpstreamDeleteOutcome) :
    Except String Unit :=
  match o with
  | .ok => .ok ()
  | .failure msg => .error ("Failed to delete subscription " ++ subscription_id ++ ": " ++ msg)

/-- Embedding of `delete_webhook_subscription` (ms365.py lines
322-380): look up the local row, delete upstream first, and only then
delete the local row and commit; an `MS365ServiceError` becomes a 400
and leaves the database untouched. -/
def delete_webhook_subscription (subscription_id : String)
    (upstream : UpstreamDeleteOutcome) (db : ApiDB) : Except HttpError Unit × ApiDB :=
  match db.subscriptions.find? (fun s => s.id == subscription_id) with
  | none => (.error ⟨404, "Subscription not found"⟩, db)
  | some row =>
    match delete_subscription row.external_subscription_id upstream with
    | .error e => (.error ⟨400, e⟩, db)
    | .ok _ =>
      (.ok (), { db with
        subscriptions := db.subscriptions.filter (fun s => !(s.id == subscription_id)) })

/-! ## Secret cipher (src/auth/app/services/oauth.py lines 16-69) -/

/-- Failure modes of the cipher layer: the master key is absent or
malformed (`_get_encryption_key` raises), or authentication of a
ciphertext fails on decrypt (`Fernet.decrypt` raises). -/
inductive CipherError where
  | missingKey
  | invalidToken
deriving Repr, DecidableEq

/-- Model of the library primitives used by `encrypt_token` and
`decrypt_token`: `Fernet.encrypt`/`Fernet.decrypt` of the
`cryptography` package and urlsafe base64.  Their contracts (round
trips, and that a Fernet token is never the empty string) are stated as
separate predicates and assumed as hypotheses where needed. -/
structure FernetPrimitives where
  fernetEncrypt : String → String
  fernetDecrypt : String → Option String
  b64encode : String → String
  b64decode : String → String

/-- Library contract: decrypting a freshly produced Fernet token
returns the plaintext. -/
def FernetRoundtrip (f : FernetPrimitives) : Prop :=
  ∀ s, f.fernetDecrypt (f.fernetEncrypt s) = some s

/-- Library contract: base64 decoding inverts base64 encoding. -/
def B64Roundtrip (f : FernetPrimitives) : Prop :=
  ∀ s, f.b64decode (f.b64encode s) = s

/-- Library contract: the base64-encoded Fernet token of a nonempty
plaintext is nonempty (Fernet tokens are at least 57 bytes). -/
def CiphertextNonempty (f : FernetPrimitives) : Prop :=
  ∀ s, s ≠ "" → f.b64encode (f.fernetEncrypt s) ≠ ""

/-- Embedding of `encrypt_token` (oauth.py lines 53-59): empty input is
returned unchanged before the cipher is even initialized; otherwise the
Fernet token of the plaintext is base64 encoded.  The `key` argument is
`none` when `OAUTH_ENCRYPTION_KEY` is absent or malformed. -/
def encrypt_token (key : Option FernetPrimitives) (plaintext : String) :
    Except CipherError String :=
  if plaintext == "" then
    .ok ""
  else
    match key with
    | none => .error .missingKey
    | some f => .ok (f.b64encode (f.fernetEncrypt plaintext))

/-- Embedding of `decrypt_token` (oauth.py lines 62-69): empty input is
returned unchanged before the cipher is even initialized; otherwise the
input is base64 decoded and authenticated-decrypted. -/
def decrypt_token (key : Option FernetPrimitives) (ciphertext : String) :
    Except CipherError String :=
  if ciphertext == "" then
    .ok ""
  else
    match key with
    | none => .error .missingKey
    | some f =>
      match f.fernetDecrypt (f.b64decode ciphertext) with
      | some s => .ok s
      | none => .error .invalidToken

/-! ## Credential store (src/auth/app/routers/credentials.py) -/

/-- Row of `auth.credentials` (the columns the routers read and
write). -/
structure Credential where
  id : String
  name : String
  display_name : String
  provider : String
  client_id : String
  encrypted_client_secret : String
  redirect_uri : String
  tenant_id : Option String
  authorization_url : String
  token_url : String
  scopes : List String
  connected_email : Option String
  external_account_id : Option String
  status : String
  error_message : Option String
deriving Repr, DecidableEq

/-- Row of `auth.credential_tokens` (one per credential, `ON CONFLICT
(credential_id)`).  Expiry is an epoch second. -/
structure CredentialTokenRow where
  credential_id : String
  encrypted_access_token : Option String
  encrypted_refresh_token : Option String
  expires_at : Option Int
  last_refreshed_at : Option Int
deriving Repr, DecidableEq

/-- State of the auth service database. -/
structure AuthDB where
  credentials : List Credential
  credential_tokens : List CredentialTokenRow
deriving Repr, DecidableEq

/-- Body of `PUT /auth/credentials/{id}`; each field is compared
against `None` (`is not None`), not for truthiness. -/
structure UpdateCredentialRequest where
  display_name : Option String
  client_id : Option String
  client_secret : Option String
  redirect_uri : Option String
  tenant_id : Option String
  authorization_url : Option String
  token_url : Option String
  scopes : Option (List String)
deriving Repr, DecidableEq

/-- One `SET` item of the dynamically built UPDATE statement of
`update_credential`. -/
inductive CredAssign where
  | setDisplayName (v : String)
  | setClientId (v : String)
  | setSecret (v : String)
  | setRedirectUri (v : String)
  | setTenantId (v : String)
  | setAuthorizationUrl (v : String)
  | setTokenUrl (v : String)
  | setScopes (v : List String)
  | setStatusPending
  | setUpdatedAt
deriving Repr, DecidableEq

/-- Target column of a `SET` item (PostgreSQL rejects an UPDATE with
two assignments to the same column). -/
def assignColumn : CredAssign → String
  | .setDisplayName _ => "display_name"
  | .setClientId _ => "client_id"
  | .setSecret _ => "encrypted_client_secret"
  | .setRedirectUri _ => "redirect_uri"
  | .setTenantId _ => "tenant_id"
  | .setAuthorizationUrl _ => "authorization_url"
  | .setTokenUrl _ => "token_url"
  | .setScopes _ => "scopes"
  | .setStatusPending => "status"
  | .setUpdatedAt => "updated_at"

/-- Effect of one `SET` item on a credential row (`updated_at` is a
timestamp not carried by the model). -/
def applyAssign (c : Credential) : CredAssign → Credential
  | .setDisplayName v => { c with display_name := v }
  | .setClientId v => { c with client_id := v }
  | .setSecret v => { c with encrypted_client_secret := v }
  | .setRedirectUri v => { c with redirect_uri := v }
  | .setTenantId v => { c with tenant_id := some v }
  | .setAuthorizationUrl v => { c with authorization_url := v }
  | .setTokenUrl v => { c with token_url := v }
  | .setScopes v => { c with scopes := v }
  | .setStatusPending => { c with status := "pending" }
  | .setUpdatedAt => c

/-- The `updates` list built by `update_credential` (credentials.py
lines 319-358): changing client id, client secret, redirect URI,
tenant or scopes also appends `status = 'pending'`; `encTok` is the
already-applied `encrypt_token` on the new secret. -/
def buildUpdates (encTok : String → String) (r : UpdateCredentialRequest) :
    List CredAssign :=
  (match r.display_name with | some v => [.setDisplayName v] | none => []) ++
  (match r.client_id with | some v => [.setClientId v, .setStatusPending] | none => []) ++
  (match r.client_secret with | some v => [.setSecret (encTok v), .setStatusPending] | none => []) ++
  (match r.redirect_uri with | some v => [.setRedirectUri v, .setStatusPending] | none => []) ++
  (match r.tenant_id with | some v => [.setTenantId v, .setStatusPending] | none => []) ++
  (match r.authorization_url with | some v => [.setAuthorizationUrl v] | none => []) ++
  (match r.token_url with | some v => [.setTokenUrl v] | none => []) ++
  (match r.scopes with | some v => [.setScopes v, .setStatusPending] | none => [])

/-- Embedding of `update_credential` (credentials.py lines 306-413):
build the dynamic UPDATE, reject an empty field set with a 400, apply
the assignments to the addressed row and return it.  An UPDATE whose
`SET` list names a column twice fails in PostgreSQL; that database
error surfaces as the handler's 500.  The missing-row 404 is raised
inside the try block, so the blanket `except Exception` rewraps it as a
500 whose detail embeds the stringified 404. -/
def update_credential (encTok : String → String) (credential_id : String)
    (r : UpdateCredentialRequest) (db : AuthDB) : Except HttpError Credential × AuthDB :=
  let updates := buildUpdates encTok r
  if updates.isEmpty then
    (.error ⟨400, "No fields to update"⟩, db)
  else
    let updates := updates ++ [.setUpdatedAt]
    if (updates.map assignColumn).Nodup then
      match db.credentials.find? (fun c => c.id == credential_id) with
      | none =>
        (.error ⟨500, "Failed to update credential: 404: Credential not found"⟩, db)
      | some c =>
        let c2 := updates.foldl applyAssign c
        (.ok c2, { db with
          credentials := db.credentials.map (fun x =>
            if x.id == credential_id then updates.foldl applyAssign x else x) })
    else
      (.error ⟨500, "Failed to update credential: multiple assignments to same column"⟩, db)

/-! ## Token broker (src/auth/app/routers/credentials_oauth.py) -/

/-- Tokens returned by the provider's token endpoint on a successful
refresh; `expires_in` is `tokens.get("expires_in", 3600)` in seconds. -/
structure RefreshTokens where
  access_token : String
  expires_in : Int
deriving Repr, DecidableEq

/-- Upstream HTTP outcome of the refresh POST; an oracle for the
external call. -/
inductive RefreshOutcome where
  | ok (t : RefreshTokens)
  | httpFailure (status : Nat) (text : String)
deriving Repr, DecidableEq

/-- Embedding of `refresh_access_token` (credentials_oauth.py lines
426-451): a non-200 upstream response raises a 502 wrapping the
response text. -/
def refresh_access_token (o : RefreshOutcome) : Except HttpError RefreshTokens :=
  match o with
  | .ok t => .ok t
  | .httpFailure _ text => .error ⟨502, "Token refresh failed: " ++ text⟩

/-- Successful response body of the internal token-vending endpoint. -/
structure TokenResponse where
  access_token : String
  expires_at : Option Int
  token_type : String
  credential_id : String
  provider : String
deriving Repr, DecidableEq

/-- How the request body identifies the credential (lines 252-311);
each branch also requires `status = 'connected'` in its WHERE clause. -/
inductive CredSelector where
  | byId (s : String)
  | byName (s : String)
  | byEmail (s : String)
  | byExternalId (s : String)
deriving Repr, DecidableEq

/-- WHERE clause of the four lookup branches, minus the status
filter. -/
def selectorMatches : CredSelector → Credential → Bool
  | .byId s, c => c.id == s
  | .byName s, c => c.name == s
  | .byEmail s, c => c.connected_email == some s
  | .byExternalId s, c => c.external_account_id == some s

/-- The credential lookup of the token-vending endpoint: first row
with a matching identifier and status `connected`, LEFT JOINed with its
token row. -/
def lookupConnected (db : AuthDB) (sel : CredSelector) :
    Option (Credential × Option CredentialTokenRow) :=
  match db.credentials.find? (fun c => selectorMatches sel c && c.status == "connected") with
  | none => none
  | some c => some (c, db.credential_tokens.find? (fun t => t.credential_id == c.id))

/-- Core of `get_credential_token_internal` after the credential
selector is resolved (credentials_oauth.py lines 266-392): 404 when no
connected credential matches; 404 when it has no stored access token;
return the decrypted stored token when its expiry is absent or at least
the 300-second margin away; otherwise refresh — 401 when no refresh
token is stored, 502 from `refresh_access_token` on upstream failure,
and on success persist the new token with expiry `now + expires_in` and
return it.  `decTok`/`encTok` are the already-configured
`decrypt_token`/`encrypt_token`. -/
def vendToken (decTok encTok : String → String) (now : Int)
    (refreshResult : RefreshOutcome) (db : AuthDB) (sel : CredSelector) :
    Except HttpError TokenResponse × AuthDB :=
  match lookupConnected db sel with
  | none => (.error ⟨404, "Connected credential not found"⟩, db)
  | some (c, trow) =>
    let encAccess : Option String := trow.bind (·.encrypted_access_token)
    let encRefresh : Option String := trow.bind (·.encrypted_refresh_token)
    let expiresAt : Option Int := trow.bind (·.expires_at)
    if !(truthy encAccess) then
      (.error ⟨404, "No tokens found for this credential"⟩, db)
    else
      let access := decTok (encAccess.getD "")
      match expiresAt with
      | none =>
        (.ok ⟨access, none, "Bearer", c.id, c.provider⟩, db)
      | some e =>
        if e - now < 300 then
          if !(truthy encRefresh) then
            (.error ⟨401, "Token expired and no refresh token available"⟩, db)
          else
            match refresh_access_token refreshResult with
            | .error err => (.error err, db)
            | .ok nt =>
              let newExp := now + nt.expires_in
              let db2 := { db with
                credential_tokens := db.credential_tokens.map (fun t =>
                  if t.credential_id == c.id then
                    { t with
                      encrypted_access_token := some (encTok nt.access_token)
                      expires_at := some newExp
                      last_refreshed_at := some now }
                  else t) }
              (.ok ⟨nt.access_token, some newExp, "Bearer", c.id, c.provider⟩, db2)
        else
          (.ok ⟨access, some e, "Bearer", c.id, c.provider⟩, db)

/-- Request body of the internal token-vending endpoint. -/
structure TokenRequestBody where
  credential_id : Option String
  credential_name : Option String
  email : Option String
  external_account_id : Option String
deriving Repr, DecidableEq

/-- Service-secret check (lines 246-250): the header must be truthy and
equal to the configured secret. -/
def serviceAuthOk (given expected : Option String) : Bool :=
  truthy given && given == expected

/-- Embedding of `get_credential_token_internal` (credentials_oauth.py
lines 229-392): service-secret check, identifier validation (`uuidOk`
models `UUID(credential_id)` succeeding), then the vending core.  The
four identifier fields are tried in source order by truthiness. -/
def get_credential_token_internal (decTok encTok : String → String)
    (uuidOk : String → Bool) (serviceToken expectedToken : Option String)
    (body : TokenRequestBody) (now : Int) (refreshResult : RefreshOutcome)
    (db : AuthDB) : Except HttpError TokenResponse × AuthDB :=
  if !(serviceAuthOk serviceToken expectedToken) then
    (.error ⟨401, "Invalid service token"⟩, db)
  else if !(truthy body.credential_id || truthy body.credential_name ||
            truthy body.email || truthy body.external_account_id) then
    (.error ⟨400, "Must provide one of: credential_id, credential_name, email, or external_account_id"⟩, db)
  else if truthy body.credential_id then
    let cid := body.credential_id.getD ""
    if !(uuidOk cid) then
      (.error ⟨400, "Invalid credential_id format"⟩, db)
    else
      vendToken decTok encTok now refreshResult db (.byId cid)
  else if truthy body.credential_name then
    vendToken decTok encTok now refreshResult db (.byName (body.credential_name.getD ""))
  else if truthy body.email then
    vendToken decTok encTok now refreshResult db (.byEmail (body.email.getD ""))
  else
    vendToken decTok encTok now refreshResult db (.byExternalId (body.external_account_id.getD ""))

/-! ## Statement helpers and concrete fixtures -/

/-- Empty API database. -/
def emptyApiDB : ApiDB := ⟨[], [], 0⟩

/-- A fully resolvable sample notification. -/
def n0 : Notification :=
  ⟨some "ext-sub-1", some "created", some "Users/u/Messages/m1", some "res-1", none⟩

/-- A notification without a subscription id (skipped by the
handler). -/
def nBad : Notification := ⟨none, some "created", none, some "res-1", none⟩

/-- A stored subscription matching `n0` and `nB`. -/
def sub0 : SubscriptionRow := ⟨"sub-1", "cred-1", "ext-sub-1", "active", none⟩

/-- API database holding just `sub0`. -/
def apiDB0 : ApiDB := ⟨[sub0], [], 0⟩

/-- A pending event with no prior attempts. -/
def e0 : WebhookEventRow :=
  ⟨1, "cred-1", "sub-1", "ms365", some "created", "cred-1:ext-sub-1:res-1",
   "res-1", n0, "pending", 0, none, none⟩

/-- Concrete cipher primitives satisfying the library contracts: the
Fernet step prepends a marker character, base64 is the identity. -/
def f0 : FernetPrimitives :=
  { fernetEncrypt := fun s => (Char.ofNat 69 :: s.toList).asString
    fernetDecrypt := fun s => some (s.toList.drop 1).asString
    b64encode := fun s => s
    b64decode := fun s => s }

/-- A connected credential. -/
def cred0 : Credential :=
  { id := "c1"
    name := "acme-ms365"
    display_name := "Acme MS365"
    provider := "ms365"
    client_id := "client-1"
    encrypted_client_secret := "enc-secret"
    redirect_uri := "https://app.example/cb"
    tenant_id := none
    authorization_url := "https://login.example/authorize"
    token_url := "https://login.example/token"
    scopes := ["Mail.Read"]
    connected_email := some "user@example.com"
    external_account_id := some "ext-acct-1"
    status := "connected"
    error_message := none }

/-- Token row for `cred0`: access and refresh tokens stored, expiry at
epoch second 100. -/
def tok0 : CredentialTokenRow := ⟨"c1", some "enc-access", some "enc-refresh", some 100, none⟩

/-- Auth database holding `cred0` and `tok0`. -/
def authDB0 : AuthDB := ⟨[cred0], [tok0]⟩

/-- Status reset and vending lockout after a credential update: every
row of the addressed credential is `pending`, and any vending lookup
that can only resolve to that credential fails with the 404 "Connected
credential not found". -/
def UpdateDisconnects (encTok : String → String) (cid : String)
    (r : UpdateCredentialRequest) (db : AuthDB) : Prop :=
  (∀ x ∈ (update_credential encTok cid r db).2.credentials,
    x.id = cid → x.status = "pending") ∧
  (∀ (sel : CredSelector) (decTok encTok2 : String → String) (now : Int)
      (refreshResult : RefreshOutcome),
    (∀ x ∈ db.credentials, selectorMatches sel x = true → x.id = cid) →
    (vendToken decTok encTok2 now refreshResult (update_credential encTok cid r db).2 sel).1 =
      .error ⟨404, "Connected credential not found"⟩)

/-! ## Claim C8 — validation handshake echo -/

/-- C8 (counterexample): a request carrying an empty validation-token
query parameter is not echoed; Python truthiness sends it down the
notification path instead. -/
theorem c8_counterexample :
    ¬ ((receive_ms365_webhook 0 (some "") (.parsed []) emptyApiDB).1 = .plainText 200 "") ∧
    (receive_ms365_webhook 0 (some "") (.parsed []) emptyApiDB).1 = .acceptedEmpty := by
  decide

/-- C8 (amended): every request carrying a nonempty validation-token
query parameter is answered with exactly that token as a plain-text 200
body, regardless of the request body, and the database is untouched. -/
theorem c8_validation_echo (now : Int) (t : String) (body : RequestBody) (db : ApiDB)
    (h : t ≠ "") :
    receive_ms365_webhook now (some t) body db = (.plainText 200 t, db) := by
  simp [receive_ms365_webhook, truthy, h]

/-- C8 (witness): the echo theorem at a concrete token and a malformed
body. -/
theorem c8_witness :
    ("tok" : String) ≠ "" ∧
    receive_ms365_webhook 0 (some "tok") .malformed emptyApiDB =
      (.plainText 200 "tok", emptyApiDB) :=
  ⟨by decide, c8_validation_echo 0 "tok" .malformed emptyApiDB (by decide)⟩

/-! ## Claim C3 — the HTTP boundary always acknowledges -/

/-- C3 (counterexample): a non-handshake request whose body is not
valid JSON is answered with a raised 400, a failed HTTP response — the
handler does not always acknowledge. -/
theorem c3_counterexample :
    (receive_ms365_webhook 0 none .malformed emptyApiDB).1 = .httpError 400 "Invalid JSON" ∧
    ((receive_ms365_webhook 0 none .malformed emptyApiDB).1).isSuccess = false := by
  decide

/-- C3 (amended): every non-handshake request whose body parses as
JSON is acknowledged with a success response; ingestion errors inside
the loop are swallowed, never propagated as a failed HTTP response. -/
theorem c3_parsed_body_always_acknowledged (now : Int) (tok : Option String)
    (v : List Notification) (db : ApiDB) (h : truthy tok = false) :
    ((receive_ms365_webhook now tok (.parsed v) db).1).isSuccess = true := by
  unfold receive_ms365_webhook
  rw [h]
  by_cases hv : v.isEmpty <;> simp [hv, WebhookResponse.isSuccess]

/-- C3 (witness): the acknowledgment theorem on a concrete valid
batch. -/
theorem c3_witness :
    truthy none = false ∧
    ((receive_ms365_webhook 0 none (.parsed [n0]) apiDB0).1).isSuccess = true :=
  ⟨rfl, c3_parsed_body_always_acknowledged 0 none [n0] apiDB0 rfl⟩

/-! ## Claim C7 — upstream delete gates the local delete -/

/-- C7: when the provider-side delete fails, the handler returns a 400
wrapping the service error and the local subscription row survives (the
database is unchanged); the local row is removed exactly when the
upstream delete succeeds. -/
theorem c7_upstream_delete_gates_local (sid msg : String) (db : ApiDB)
    (row : SubscriptionRow)
    (hfind : db.subscriptions.find? (fun s => s.id == sid) = some row) :
    delete_webhook_subscription sid (.failure msg) db =
      (.error ⟨400, "Failed to delete subscription " ++ row.external_subscription_id
        ++ ": " ++ msg⟩, db) ∧
    delete_webhook_subscription sid .ok db =
      (.ok (), { db with subscriptions := db.subscriptions.filter (fun s => !(s.id == sid)) }) := by
  unfold delete_webhook_subscription
  rw [hfind]
  exact ⟨rfl, rfl⟩

/-- C7 (witness): the gating theorem on a concrete database with one
subscription. -/
theorem c7_witness :
    apiDB0.subscriptions.find? (fun s => s.id == "sub-1") = some sub0 ∧
    (delete_webhook_subscription "sub-1" (.failure "down") apiDB0 =
      (.error ⟨400, "Failed to delete subscription ext-sub-1: down"⟩, apiDB0) ∧
    delete_webhook_subscription "sub-1" .ok apiDB0 =
      (.ok (), { apiDB0 with
        subscriptions := apiDB0.subscriptions.filter (fun s => !(s.id == "sub-1")) })) :=
  ⟨rfl, c7_upstream_delete_gates_local "sub-1" "down" apiDB0 sub0 rfl⟩

/-! ## Claim C2 — retry accounting and the failure ceiling -/

/-- C2 (counterexample): with ceiling 3, the third consecutive failure
already moves the event to `failed` — the `pending → processing →
pending` cycle happens only twice and a fourth attempt is impossible,
contradicting the claimed four-attempt scenario. -/
theorem c2_counterexample :
    (failedAttempt 3 "err" (failedAttempt 3 "err" (failedAttempt 3 "err" e0))).status
      = "failed" ∧
    ¬ ((failedAttempt 3 "err" (failedAttempt 3 "err" (failedAttempt 3 "err" e0))).status
      = "pending") ∧
    selectable 3 (failedAttempt 3 "err" (failedAttempt 3 "err" (failedAttempt 3 "err" e0)))
      = false := by
  decide

/-- C2 (amended): each failed attempt on a selectable event increments
the retry count by exactly one and yields `failed` exactly when the new
count reaches the ceiling, never before or after; with ceiling 3, the
first two failures cycle `pending → processing → pending` and the third
yields `processing → failed`, after which the event is no longer
selectable. -/
theorem c2_retry_increment_and_ceiling (maxRetry : Nat) (msg : String)
    (e : WebhookEventRow) (hsel : selectable maxRetry e = true) :
    (markProcessing e).status = "processing" ∧
    (failedAttempt maxRetry msg e).retry_count = e.retry_count + 1 ∧
    ((failedAttempt maxRetry msg e).status = "failed" ↔ e.retry_count + 1 = maxRetry) ∧
    ((failedAttempt maxRetry msg e).status = "failed" ∨
      (failedAttempt maxRetry msg e).status = "pending") ∧
    (e.retry_count = 0 →
      (failedAttempt 3 msg e).status = "pending" ∧
      (failedAttempt 3 msg e).retry_count = 1 ∧
      (failedAttempt 3 msg (failedAttempt 3 msg e)).status = "pending" ∧
      (failedAttempt 3 msg (failedAttempt 3 msg e)).retry_count = 2 ∧
      (failedAttempt 3 msg (failedAttempt 3 msg (failedAttempt 3 msg e))).status = "failed" ∧
      selectable 3 (failedAttempt 3 msg (failedAttempt 3 msg (failedAttempt 3 msg e)))
        = false) := by
  have hlt : e.retry_count < maxRetry := by
    simp only [selectable, Bool.and_eq_true, decide_eq_true_eq] at hsel
    exact hsel.2
  refine ⟨rfl, rfl, ?_, ?_, ?_⟩
  · unfold failedAttempt applyFailure markProcessing
    by_cases h : maxRetry ≤ e.retry_count + 1
    · simp only [h, if_true]
      constructor
      · intro _; omega
      · intro _; trivial
    · simp only [h, if_false]
      constructor
      · intro hc; exact absurd hc (by decide)
      · intro hc; omega
  · unfold failedAttempt applyFailure markProcessing
    by_cases h : maxRetry ≤ e.retry_count + 1 <;> simp [h]
  · intro h0
    refine ⟨?_, ?_, ?_, ?_, ?_, ?_⟩ <;>
      simp [failedAttempt, applyFailure, markProcessing, selectable, h0]

/-- C2 (witness): the retry theorem on a concrete fresh pending
event. -/
theorem c2_witness :
    selectable 3 e0 = true ∧
    ((markProcessing e0).status = "processing" ∧
    (failedAttempt 3 "err" e0).retry_count = e0.retry_count + 1 ∧
    ((failedAttempt 3 "err" e0).status = "failed" ↔ e0.retry_count + 1 = 3) ∧
    ((failedAttempt 3 "err" e0).status = "failed" ∨
      (failedAttempt 3 "err" e0).status = "pending") ∧
    (e0.retry_count = 0 →
      (failedAttempt 3 "err" e0).status = "pending" ∧
      (failedAttempt 3 "err" e0).retry_count = 1 ∧
      (failedAttempt 3 "err" (failedAttempt 3 "err" e0)).status = "pending" ∧
      (failedAttempt 3 "err" (failedAttempt 3 "err" e0)).retry_count = 2 ∧
      (failedAttempt 3 "err" (failedAttempt 3 "err" (failedAttempt 3 "err" e0))).status
        = "failed" ∧
      selectable 3 (failedAttempt 3 "err" (failedAttempt 3 "err" (failedAttempt 3 "err" e0)))
        = false)) :=
  ⟨rfl, c2_retry_increment_and_ceiling 3 "err" e0 rfl⟩

/-! ## Claim C10 — unresolvable notifications are skipped silently -/

/-- C10: a notification lacking a truthy subscription id or a
resolvable resource id is a complete no-op inside the loop — no row, no
counter change, no error — and the handler still acknowledges the batch
with the remaining notifications processed. -/
theorem c10_invalid_notification_skipped (now : Int) (acc : ApiDB × Nat × Nat)
    (n : Notification) (l1 l2 : List Notification) (db : ApiDB)
    (hbad : truthy n.subscriptionId = false ∨ truthy (resolvedResourceId n) = false) :
    processNotification now acc n = acc ∧
    receive_ms365_webhook now none (.parsed (l1 ++ n :: l2)) db =
      (.accepted ((l1 ++ l2).foldl (processNotification now) (db, 0, 0)).2.1
                 ((l1 ++ l2).foldl (processNotification now) (db, 0, 0)).2.2
                 (l1 ++ n :: l2).length,
       ((l1 ++ l2).foldl (processNotification now) (db, 0, 0)).1) := by
  have hskip : ∀ a : ApiDB × Nat × Nat, processNotification now a n = a := by
    intro a
    obtain ⟨d2, s2, p2⟩ := a
    rcases hbad with h | h <;> simp [processNotification, h]
  have hfold : (l1 ++ n :: l2).foldl (processNotification now) (db, 0, 0) =
      (l1 ++ l2).foldl (processNotification now) (db, 0, 0) := by
    rw [List.foldl_append, List.foldl_cons, hskip, ← List.foldl_append]
  refine ⟨hskip acc, ?_⟩
  simp only [receive_ms365_webhook, truthy, Bool.false_eq_true, if_false, hfold]
  have hne : (l1 ++ n :: l2).isEmpty = false := by
    simp [List.isEmpty_iff]
  rw [hne]
  simp

/-- C10 (witness): the skip theorem on a concrete notification missing
its subscription id. -/
theorem c10_witness :
    (truthy nBad.subscriptionId = false ∨ truthy (resolvedResourceId nBad) = false) ∧
    (processNotification 0 (apiDB0, 0, 0) nBad = (apiDB0, 0, 0) ∧
     receive_ms365_webhook 0 none (.parsed [nBad]) apiDB0 = (.accepted 0 0 1, apiDB0)) :=
  ⟨Or.inl rfl, c10_invalid_notification_skipped 0 (apiDB0, 0, 0) nBad [] [] apiDB0 (Or.inl rfl)⟩

/-! ## Claim C9 — cipher round trip and the empty-string shortcut -/

/-- C9: under the library contracts for Fernet and base64, decrypting
an encrypted string returns the original; the empty string is mapped to
itself by both directions even when no master key is configured. -/
theorem c9_encrypt_decrypt_roundtrip (f : FernetPrimitives) (s : String)
    (h1 : FernetRoundtrip f) (h2 : B64Roundtrip f) (h3 : CiphertextNonempty f) :
    (∃ c, encrypt_token (some f) s = .ok c ∧ decrypt_token (some f) c = .ok s) ∧
    encrypt_token none "" = .ok "" ∧ decrypt_token none "" = .ok "" := by
  refine ⟨?_, rfl, rfl⟩
  by_cases hs : s = ""
  · subst hs
    exact ⟨"", rfl, rfl⟩
  · refine ⟨f.b64encode (f.fernetEncrypt s), ?_, ?_⟩
    · simp [encrypt_token, hs]
    · have hne := h3 s hs
      simp [decrypt_token, hne, h2 (f.fernetEncrypt s), h1 s]

/-- C9 (witness): the round-trip theorem at concrete primitives and a
concrete secret. -/
theorem c9_witness :
    FernetRoundtrip f0 ∧ B64Roundtrip f0 ∧ CiphertextNonempty f0 ∧
    ((∃ c, encrypt_token (some f0) "secret" = .ok c ∧
        decrypt_token (some f0) c = .ok "secret") ∧
      encrypt_token none "" = .ok "" ∧ decrypt_token none "" = .ok "") := by
  have hr : FernetRoundtrip f0 := fun s => rfl
  have hb : B64Roundtrip f0 := fun s => rfl
  have hn : CiphertextNonempty f0 := by
    intro s hs h
    simp only [f0] at h
    rw [List.asString_eq] at h
    simp at h
  exact ⟨hr, hb, hn, c9_encrypt_decrypt_roundtrip f0 "secret" hr hb hn⟩

/-! ## Claim C4 — no expired token is vended -/

/-- C4: for a connected credential with a stored access token and a
known expiry, the broker returns the stored token exactly when its
expiry clears the 300-second margin; inside the margin it fails with
the no-refresh-token 401 when no refresh token is stored and otherwise
follows the refresh call; assuming the provider reports a nonnegative
token lifetime, no successful response ever carries an expiry in the
past. -/
theorem c4_no_expired_token_vended (decTok encTok : String → String) (now : Int)
    (refreshResult : RefreshOutcome) (db : AuthDB) (sel : CredSelector)
    (c : Credential) (t : CredentialTokenRow) (e : Int)
    (hfind : db.credentials.find?
      (fun x => selectorMatches sel x && x.status == "connected") = some c)
    (htok : db.credential_tokens.find? (fun x => x.credential_id == c.id) = some t)
    (hacc : truthy t.encrypted_access_token = true)
    (hexp : t.expires_at = some e)
    (href : ∀ nt, refreshResult = .ok nt → 0 ≤ nt.expires_in) :
    (∀ resp e2, (vendToken decTok encTok now refreshResult db sel).1 = .ok resp →
      resp.expires_at = some e2 → now ≤ e2) ∧
    (300 ≤ e - now →
      (vendToken decTok encTok now refreshResult db sel).1 =
        .ok ⟨decTok (t.encrypted_access_token.getD ""), some e, "Bearer", c.id, c.provider⟩) ∧
    (e - now < 300 → truthy t.encrypted_refresh_token = false →
      (vendToken decTok encTok now refreshResult db sel).1 =
        .error ⟨401, "Token expired and no refresh token available"⟩) ∧
    (e - now < 300 → truthy t.encrypted_refresh_token = true →
      (vendToken decTok encTok now refreshResult db sel).1 =
        (refresh_access_token refreshResult).map
          (fun nt => ⟨nt.access_token, some (now + nt.expires_in), "Bearer", c.id, c.provider⟩)) := by
  have hlook : lookupConnected db sel = some (c, some t) := by
    simp [lookupConnected, hfind, htok]
  refine ⟨?_, ?_, ?_, ?_⟩
  · intro resp e2 hok he2
    by_cases hc : e - now < 300
    · by_cases hrt : truthy t.encrypted_refresh_token = true
      · cases hrf : refreshResult with
        | ok nt =>
          have hval : (vendToken decTok encTok now refreshResult db sel).1 =
              .ok ⟨nt.access_token, some (now + nt.expires_in), "Bearer", c.id, c.provider⟩ := by
            simp [vendToken, hlook, hacc, hexp, hc, hrt, refresh_access_token, hrf]
          rw [hval] at hok
          cases hok
          have := href nt hrf
          simp only [Option.some.injEq] at he2
          omega
        | httpFailure code txt =>
          have hval : (vendToken decTok encTok now refreshResult db sel).1 =
              .error ⟨502, "Token refresh failed: " ++ txt⟩ := by
            simp [vendToken, hlook, hacc, hexp, hc, hrt, refresh_access_token, hrf]
          rw [hval] at hok
          cases hok
      · have hrt2 : truthy t.encrypted_refresh_token = false := by
          simpa using hrt
        have hval : (vendToken decTok encTok now refreshResult db sel).1 =
            .error ⟨401, "Token expired and no refresh token available"⟩ := by
          simp [vendToken, hlook, hacc, hexp, hc, hrt2]
        rw [hval] at hok
        cases hok
    · have hval : (vendToken decTok encTok now refreshResult db sel).1 =
          .ok ⟨decTok (t.encrypted_access_token.getD ""), some e, "Bearer", c.id, c.provider⟩ := by
        simp [vendToken, hlook, hacc, hexp, hc]
      rw [hval] at hok
      cases hok
      simp only [Option.some.injEq] at he2
      omega
  · intro hge
    have hc : ¬ (e - now < 300) := by omega
    simp [vendToken, hlook, hacc, hexp, hc]
  · intro hc hrt
    simp [vendToken, hlook, hacc, hexp, hc, hrt]
  · intro hc hrt
    cases hrf : refreshResult with
    | ok nt => simp [vendToken, hlook, hacc, hexp, hc, hrt, refresh_access_token, Except.map]
    | httpFailure code txt =>
      simp [vendToken, hlook, hacc, hexp, hc, hrt, refresh_access_token, Except.map]

/-- C4 (witness): the margin branch of the vending theorem at a
concrete database, far from expiry. -/
theorem c4_witness :
    truthy tok0.encrypted_access_token = true ∧
    (vendToken (fun s => s) (fun s => s) (-1000) (.httpFailure 500 "x") authDB0 (.byId "c1")).1 =
      .ok ⟨"enc-access", some 100, "Bearer", "c1", "ms365"⟩ :=
  ⟨rfl, by
    have h := (c4_no_expired_token_vended (fun s => s) (fun s => s) (-1000)
      (.httpFailure 500 "x") authDB0 (.byId "c1") cred0 tok0 100 rfl rfl rfl rfl
      (fun nt h => nomatch h)).2.1
    exact h (by decide)⟩

/-! ## Claim C5 — failed refresh wraps the upstream error -/

/-- C5 (counterexample): a failed refresh propagates a 502 wrapping the
upstream detail, but the credential's stored status is NOT set to
`error` — the database is returned unchanged with the credential still
`connected`. -/
theorem c5_counterexample :
    (get_credential_token_internal (fun s => s) (fun s => s) (fun _ => true)
      (some "svc") (some "svc") ⟨some "c1", none, none, none⟩ 0
      (.httpFailure 400 "boom") authDB0).1 =
      .error ⟨502, "Token refresh failed: boom"⟩ ∧
    ((get_credential_token_internal (fun s => s) (fun s => s) (fun _ => true)
      (some "svc") (some "svc") ⟨some "c1", none, none, none⟩ 0
      (.httpFailure 400 "boom") authDB0).2.credentials.map (fun c => c.status)) =
      ["connected"] :=
  ⟨rfl, rfl⟩

/-- C5 (amended): when the refresh call fails upstream, the vending
operation fails with a 502 whose detail wraps the upstream response
text, and the database — in particular every credential's status — is
left unchanged. -/
theorem c5_refresh_failure_wraps_upstream (decTok encTok : String → String)
    (now : Int) (db : AuthDB) (sel : CredSelector) (c : Credential)
    (t : CredentialTokenRow) (e : Int) (code : Nat) (txt : String)
    (hfind : db.credentials.find?
      (fun x => selectorMatches sel x && x.status == "connected") = some c)
    (htok : db.credential_tokens.find? (fun x => x.credential_id == c.id) = some t)
    (hacc : truthy t.encrypted_access_token = true)
    (hexp : t.expires_at = some e)
    (hlt : e - now < 300)
    (hrt : truthy t.encrypted_refresh_token = true) :
    vendToken decTok encTok now (.httpFailure code txt) db sel =
      (.error ⟨502, "Token refresh failed: " ++ txt⟩, db) := by
  have hlook : lookupConnected db sel = some (c, some t) := by
    simp [lookupConnected, hfind, htok]
  simp [vendToken, hlook, hacc, hexp, hlt, hrt, refresh_access_token]

/-- C5 (witness): the amended theorem on the concrete connected
credential with an expired token. -/
theorem c5_witness :
    truthy tok0.encrypted_refresh_token = true ∧
    vendToken (fun s => s) (fun s => s) 0 (.httpFailure 400 "boom") authDB0 (.byId "c1") =
      (.error ⟨502, "Token refresh failed: boom"⟩, authDB0) :=
  ⟨rfl, c5_refresh_failure_wraps_upstream (fun s => s) (fun s => s) 0 authDB0
    (.byId "c1") cred0 tok0 100 400 "boom" rfl rfl rfl rfl (by decide) rfl⟩

/-! ## Claim C6 — config updates, status reset and vending lockout -/

/-- C6 (counterexample): an in-scope partial update changing the client
secret together with the client id duplicates the `status = 'pending'`
assignment, so PostgreSQL rejects the UPDATE; the handler returns a 500,
the credential stays `connected`, and token vending still succeeds. -/
theorem c6_counterexample :
    ((update_credential (fun s => s) "c1"
      ⟨none, some "new-client", some "new-secret", none, none, none, none, none⟩
      authDB0).2.credentials.map (fun c => c.status)) = ["connected"] ∧
    (vendToken (fun s => s) (fun s => s) (-1000) (.httpFailure 500 "x")
      (update_credential (fun s => s) "c1"
        ⟨none, some "new-client", some "new-secret", none, none, none, none, none⟩
        authDB0).2 (.byId "c1")).1 =
      .ok ⟨"enc-access", some 100, "Bearer", "c1", "ms365"⟩ :=
  ⟨rfl, rfl⟩

/-- An update whose SET list is one non-status trigger assignment
followed by `status = 'pending'` succeeds, turns every row of the
addressed credential `pending`, and locks vending out afterwards. -/
theorem single_trigger_update_disconnects (encTok : String → String) (cid : String)
    (db : AuthDB) (c : Credential) (r : UpdateCredentialRequest) (a : CredAssign)
    (hfind : db.credentials.find? (fun x => x.id == cid) = some c)
    (hb : buildUpdates encTok r = [a, .setStatusPending])
    (hcol : assignColumn a ≠ "status" ∧ assignColumn a ≠ "updated_at") :
    UpdateDisconnects encTok cid r db := by
  have hnodup : (([a, CredAssign.setStatusPending,
      CredAssign.setUpdatedAt]).map assignColumn).Nodup := by
    have h1 : assignColumn CredAssign.setStatusPending = "status" := rfl
    have h2 : assignColumn CredAssign.setUpdatedAt = "updated_at" := rfl
    simp [List.nodup_cons, h1, h2, hcol.1, hcol.2]
  have hred : update_credential encTok cid r db =
      (.ok (List.foldl applyAssign c [a, .setStatusPending, .setUpdatedAt]),
       { db with credentials := db.credentials.map (fun x =>
          if x.id == cid then
            List.foldl applyAssign x [a, .setStatusPending, .setUpdatedAt]
          else x) }) := by
    simp only [update_credential, hb, List.cons_append, List.nil_append, List.isEmpty_cons,
      Bool.false_eq_true, if_false]
    rw [if_pos hnodup, hfind]
  constructor
  · intro x hx hid
    rw [hred] at hx
    simp only [List.mem_map] at hx
    obtain ⟨y, hy, hfy⟩ := hx
    by_cases hyc : y.id == cid
    · rw [if_pos hyc] at hfy
      rw [← hfy]
      rfl
    · rw [if_neg hyc] at hfy
      subst hfy
      exact absurd (by simp [hid]) hyc
  · intro sel decTok encTok2 now refreshResult honly
    have hnone : (update_credential encTok cid r db).2.credentials.find?
        (fun x => selectorMatches sel x && x.status == "connected") = none := by
      rw [hred]
      rw [List.find?_eq_none]
      intro x hx
      simp only [List.mem_map] at hx
      obtain ⟨y, hy, hfy⟩ := hx
      by_cases hyc : y.id == cid
      · rw [if_pos hyc] at hfy
        subst hfy
        have hst : (List.foldl applyAssign y
            [a, .setStatusPending, .setUpdatedAt]).status = "pending" := rfl
        simp only [Bool.and_eq_true, beq_iff_eq, not_and]
        intro _
        rw [hst]
        decide
      · rw [if_neg hyc] at hfy
        subst hfy
        intro hp
        simp only [Bool.and_eq_true, beq_iff_eq] at hp
        exact absurd (honly y hy hp.1) (by simpa using hyc)
    simp [vendToken, lookupConnected, hnone]

/-- C6 (amended): a partial update changing exactly one OAuth-config
trigger field — client secret, client id, redirect URI, tenant, or
scopes — and nothing else resets the credential's status to `pending`,
after which every token-vending call that can only resolve to that
credential fails with the 404 "Connected credential not found" until
re-authorization; an update changing the client secret together with a
second trigger field instead fails with a 500 (the UPDATE assigns
`status` twice, which PostgreSQL rejects) and leaves the database — and
hence vending — unchanged. -/
theorem c6_trigger_field_updates (encTok : String → String) (cid v : String)
    (vs : List String) (db : AuthDB) (c : Credential)
    (hfind : db.credentials.find? (fun x => x.id == cid) = some c) :
    UpdateDisconnects encTok cid ⟨none, none, some v, none, none, none, none, none⟩ db ∧
    UpdateDisconnects encTok cid ⟨none, some v, none, none, none, none, none, none⟩ db ∧
    UpdateDisconnects encTok cid ⟨none, none, none, some v, none, none, none, none⟩ db ∧
    UpdateDisconnects encTok cid ⟨none, none, none, none, some v, none, none, none⟩ db ∧
    UpdateDisconnects encTok cid ⟨none, none, none, none, none, none, none, some vs⟩ db ∧
    (∀ v2, ∃ detail, update_credential encTok cid
        ⟨none, some v, some v2, none, none, none, none, none⟩ db =
      (.error ⟨500, detail⟩, db)) := by
  refine ⟨?_, ?_, ?_, ?_, ?_, ?_⟩
  · exact single_trigger_update_disconnects encTok cid db c _ (.setSecret (encTok v))
      hfind rfl ⟨by simp [assignColumn], by simp [assignColumn]⟩
  · exact single_trigger_update_disconnects encTok cid db c _ (.setClientId v)
      hfind rfl ⟨by simp [assignColumn], by simp [assignColumn]⟩
  · exact single_trigger_update_disconnects encTok cid db c _ (.setRedirectUri v)
      hfind rfl ⟨by simp [assignColumn], by simp [assignColumn]⟩
  · exact single_trigger_update_disconnects encTok cid db c _ (.setTenantId v)
      hfind rfl ⟨by simp [assignColumn], by simp [assignColumn]⟩
  · exact single_trigger_update_disconnects encTok cid db c _ (.setScopes vs)
      hfind rfl ⟨by simp [assignColumn], by simp [assignColumn]⟩
  · intro v2
    refine ⟨"Failed to update credential: multiple assignments to same column", ?_⟩
    have hb2 : buildUpdates encTok ⟨none, some v, some v2, none, none, none, none, none⟩ =
        [.setClientId v, .setStatusPending, .setSecret (encTok v2), .setStatusPending] := rfl
    simp only [update_credential, hb2, List.cons_append, List.nil_append, List.isEmpty_cons,
      Bool.false_eq_true, if_false]
    rw [if_neg (by simp [assignColumn, List.nodup_cons])]

/-- C6 (witness): the trigger-field theorem on the concrete connected
credential. -/
theorem c6_witness :
    authDB0.credentials.find? (fun x => x.id == "c1") = some cred0 ∧
    (UpdateDisconnects (fun s => s) "c1"
        ⟨none, none, some "new-secret", none, none, none, none, none⟩ authDB0 ∧
     UpdateDisconnects (fun s => s) "c1"
        ⟨none, some "new-secret", none, none, none, none, none, none⟩ authDB0 ∧
     UpdateDisconnects (fun s => s) "c1"
        ⟨none, none, none, some "new-secret", none, none, none, none⟩ authDB0 ∧
     UpdateDisconnects (fun s => s) "c1"
        ⟨none, none, none, none, some "new-secret", none, none, none⟩ authDB0 ∧
     UpdateDisconnects (fun s => s) "c1"
        ⟨none, none, none, none, none, none, none, some ["new-scope"]⟩ authDB0 ∧
     (∀ v2, ∃ detail, update_credential (fun s => s) "c1"
         ⟨none, some "new-secret", some v2, none, none, none, none, none⟩ authDB0 =
       (.error ⟨500, detail⟩, authDB0))) :=
  ⟨rfl, c6_trigger_field_updates (fun s => s) "c1" "new-secret" ["new-scope"]
    authDB0 cred0 rfl⟩

/-! ## Claim C1 — duplicate notifications are recorded exactly once -/

end AIWF
